import Mathlib

/-!
Verification of the AI Request Orchestration & Tiered Model Routing subsystem
of the mikamo-portal repository (backend/app/services/ai/*, ai_service_v2.py,
staff_qa_service.py, issue_insight_extractor.py, api/ai_chat.py).

The Python source is shallowly embedded: pure functions become Lean functions,
the database session becomes an explicit `Db` value threaded through the chat
turn handler, and Python exceptions become `Except PyErr`.  Standard-library
calls whose outcome the code merely branches on (the single HTTPS exchange of
`AnthropicClient.generate_reply`, and the `re.search`/`json.loads` step of the
extractor) are represented by their outcome (`HttpOutcome`, `ParseOutcome`):
everything the repository's own code does with those outcomes is embedded.
Python `str.lower`/`str.upper` are modelled on the ASCII range (`pyLower`,
`pyUpper`); all strings the code compares are ASCII or Japanese text, on which
the two semantics agree.
-/

set_option autoImplicit false

deriving instance DecidableEq for Except

namespace Mikamo

/-! ## Python-style string primitives -/

/-- ASCII lowering of one character, the relevant fragment of `str.lower`. -/
def lowerChar (c : Char) : Char :=
  if 'A' ≤ c ∧ c ≤ 'Z' then Char.ofNat (c.toNat + 32) else c

/-- ASCII raising of one character, the relevant fragment of `str.upper`. -/
def upperChar (c : Char) : Char :=
  if 'a' ≤ c ∧ c ≤ 'z' then Char.ofNat (c.toNat - 32) else c

/-- Model of Python `s.lower()` (ASCII range). -/
def pyLower (s : String) : String := String.mk (s.data.map lowerChar)

/-- Model of Python `s.upper()` (ASCII range). -/
def pyUpper (s : String) : String := String.mk (s.data.map upperChar)

/-- Model of Python character slicing `s[:n]`. -/
def pyTake (s : String) (n : Nat) : String := String.mk (s.data.take n)

/-- Contiguous-sublist check on character lists, used to model Python `in`. -/
def infixAux (needle : List Char) : List Char → Bool
  | [] => needle.isEmpty
  | c :: t => needle.isPrefixOf (c :: t) || infixAux needle t

/-- Model of Python `needle in hay` on strings. -/
def strContains (hay needle : String) : Bool := infixAux needle.data hay.data

/-- Model of Python `a or b` on strings (first truthy operand). -/
def pyOr (a b : String) : String := if a = "" then b else a

/-- Model of Python truthiness for an optional integer id: `None` and `0`
are falsy. -/
def optTruthy (v : Option Nat) : Option Nat :=
  match v with
  | none => none
  | some n => if n = 0 then none else some n

/-- Model of Python `s.split(":", 1)` when used after an `":" in s` check:
returns the part before the first colon and the part after it. -/
def splitFirstColon (s : String) : String × String :=
  (String.mk (s.data.takeWhile (fun c => c ≠ ':')),
   String.mk ((s.data.dropWhile (fun c => c ≠ ':')).drop 1))

/-- Model of Python `text.split("\n")[0]`. -/
def firstLine (s : String) : String :=
  String.mk (s.data.takeWhile (fun c => c ≠ '\n'))

/-! ## Tier and policy resolution (`app/services/ai/client.py`) -/

/-- `AiTier` enum (client.py lines 19-23). -/
inductive AiTier where
  | basic
  | standard
  | premium
  deriving DecidableEq, Repr

/-- The `.value` string of each `AiTier` member. -/
def AiTier.val : AiTier → String
  | .basic => "basic"
  | .standard => "standard"
  | .premium => "premium"

/-- The fixed `PURPOSE_TO_TIER` table (client.py lines 28-48). -/
def PURPOSE_TO_TIER : List (String × AiTier) :=
  [("shift_planning", .basic), ("log_summary", .basic), ("simple_task", .basic),
   ("schedule", .basic),
   ("staff_qa", .standard), ("knowledge_search", .standard),
   ("customer_support", .standard), ("daily_report", .standard),
   ("default", .standard),
   ("management_decision", .premium), ("dx_report", .premium),
   ("strategic_planning", .premium), ("executive_summary", .premium),
   ("business_analysis", .premium)]

/-- `AiClientFactory.get_tier_for_purpose` (client.py lines 78-89):
`PURPOSE_TO_TIER.get(purpose.lower(), AiTier.STANDARD)`. -/
def get_tier_for_purpose (purpose : String) : AiTier :=
  match PURPOSE_TO_TIER.lookup (pyLower purpose) with
  | some t => t
  | none => .standard

/-- `AiClientFactory.apply_tier_policy` (client.py lines 236-278).  The policy
argument is modelled as its string value: `AiTierPolicy` is a `str` enum, so
the `==` comparisons of the source reduce to string comparison, and any other
string falls into the source's unknown-policy branch. -/
def apply_tier_policy (tier : AiTier) (tier_policy : String) : AiTier :=
  if tier_policy = "all" then
    tier
  else if tier_policy = "standard_max" then
    if tier = .premium then .standard else tier
  else if tier_policy = "basic_only" then
    if tier ≠ .basic then .basic else tier
  else
    .standard

/-! ## Python exceptions -/

/-- The exception values the embedded code can raise. -/
inductive PyErr where
  | valueError (msg : String)
  | typeError (msg : String)
  | attributeError (msg : String)
  | httpStatusError (code : Nat) (msg : String)
  deriving DecidableEq, Repr

/-- The exception class name, which is what a Python `except` clause
dispatches on. -/
def PyErr.klass : PyErr → String
  | .valueError _ => "ValueError"
  | .typeError _ => "TypeError"
  | .attributeError _ => "AttributeError"
  | .httpStatusError _ _ => "HTTPStatusError"

/-- The raised exception of a computation, if any. -/
def raisedErr {α : Type} : Except PyErr α → Option PyErr
  | .error e => some e
  | .ok _ => none

/-! ## Model backend adapter (`providers/anthropic_client.py`) -/

/-- Outcome of the one HTTPS exchange in `AnthropicClient.generate_reply`:
a success body with parsed text and optional token usage, a success body
without the expected `content` array, an HTTP error status with its
remote-reported detail, or an `httpx.TimeoutException`. -/
inductive HttpOutcome where
  | ok (text : String) (tokens_input tokens_output : Option Nat)
  | okBadFormat
  | status (code : Nat) (detail : String)
  | timeout
  deriving DecidableEq, Repr

/-- `AnthropicClient.generate_reply` (anthropic_client.py lines 56-200),
reduced to its observable behaviour: the missing-key guard, and the mapping
from the HTTP outcome to the returned text or raised exception. -/
def anthropic_generate_reply (api_key_set : Bool) (outcome : HttpOutcome) :
    Except PyErr String :=
  if ¬api_key_set then
    .error (.valueError ("ANTHROPIC_API_KEY is not set. Please configure it " ++
      "via environment variable or Secret Manager (MIKAMO_ANTHROPIC_KEY)."))
  else
    match outcome with
    | .ok text _ _ => .ok text
    | .okBadFormat =>
        .error (.valueError "Unexpected response format from Anthropic API")
    | .status code detail =>
        if code = 401 then
          .error (.valueError ("Anthropic API authentication failed. " ++
            "Please check ANTHROPIC_API_KEY is correctly set."))
        else if code = 429 then
          .error (.valueError ("Anthropic API rate limit exceeded. " ++
            "Please try again later."))
        else if code = 400 then
          .error (.valueError ("Anthropic API bad request: " ++ detail))
        else
          .error (.httpStatusError code detail)
    | .timeout =>
        .error (.valueError ("Anthropic API request timed out. " ++
          "The AI service may be experiencing high load."))

/-- Token usage metadata stored by a successful call
(`get_last_response_metadata`). -/
def tokens_of (outcome : HttpOutcome) : Option Nat × Option Nat :=
  match outcome with
  | .ok _ tin tout => (tin, tout)
  | _ => (none, none)

/-! ## Issue/Insight extractor (`app/services/issue_insight_extractor.py`) -/

/-- `IssueTopic` enum (models/issue.py). -/
inductive IssueTopic where
  | menu
  | operation
  | customer_complaint
  | future_risk
  | sales_opportunity
  | staffing
  | other
  deriving DecidableEq, Repr

/-- `IssueTopic(value)` as a total function: `none` models the `ValueError`
the enum constructor raises on an unknown value. -/
def issueTopicOfString (s : String) : Option IssueTopic :=
  if s = "menu" then some .menu
  else if s = "operation" then some .operation
  else if s = "customer_complaint" then some .customer_complaint
  else if s = "future_risk" then some .future_risk
  else if s = "sales_opportunity" then some .sales_opportunity
  else if s = "staffing" then some .staffing
  else if s = "other" then some .other
  else none

/-- `InsightType` enum (models/insight.py). -/
inductive InsightType where
  | risk
  | opportunity
  | improvement
  deriving DecidableEq, Repr

/-- `InsightType(value)` as a total function. -/
def insightTypeOfString (s : String) : Option InsightType :=
  if s = "risk" then some .risk
  else if s = "opportunity" then some .opportunity
  else if s = "improvement" then some .improvement
  else none

/-- A JSON value as produced by `json.loads`, restricted to the scalar shapes
the extractor's fields take; the dynamic-typing behaviour of compound values
(objects, arrays) on the operations below coincides with `jstr`'s. -/
inductive JVal where
  | jstr (s : String)
  | jint (n : Int)
  | jbool (b : Bool)
  | jnull
  deriving DecidableEq, Repr

/-- Python truthiness of a JSON value. -/
def JVal.truthy : JVal → Bool
  | .jstr s => s ≠ ""
  | .jint n => n ≠ 0
  | .jbool b => b
  | .jnull => false

/-- Python `max(a, v)` for an int `a` and a JSON value: raises `TypeError`
unless the value is numeric (`bool` counts as an int in Python). -/
def pyMaxIntJ (a : Int) (v : JVal) : Except PyErr Int :=
  match v with
  | .jint n => .ok (max a n)
  | .jbool b => .ok (max a (if b then 1 else 0))
  | _ => .error (.typeError "unsupported operand types for max")

/-- `min(100, max(0, json_data.get("insight_score", 0)))`
(issue_insight_extractor.py line 68). -/
def clampInsightScore (v : JVal) : Except PyErr Int := do
  let m ← pyMaxIntJ 0 v
  pure (min 100 m)

/-- `_is_issue_like` (issue_insight_extractor.py lines 93-100). -/
def _is_issue_like (question : String) : Bool :=
  let ql := pyLower question
  ["困", "問題", "できない", "わからない", "どうすれば", "方法",
   "エラー", "失敗", "うまくいかない", "改善", "課題"].any
    (fun kw => strContains ql kw)

/-- The keyword-table part of `_infer_issue_topic`
(issue_insight_extractor.py lines 111-126). -/
def inferTopicKeywords (question : String) : IssueTopic :=
  let ql := pyLower question
  if ["メニュー", "レシピ", "作り方", "調理"].any (fun kw => strContains ql kw) then
    .menu
  else if ["手順", "オペレーション", "作業", "やり方"].any (fun kw => strContains ql kw) then
    .operation
  else if ["クレーム", "苦情", "不満", "文句"].any (fun kw => strContains ql kw) then
    .customer_complaint
  else if ["将来", "リスク", "不安", "心配", "EV", "電気自動車"].any (fun kw => strContains ql kw) then
    .future_risk
  else if ["売上", "売れる", "伸ばす", "増やす", "機会"].any (fun kw => strContains ql kw) then
    .sales_opportunity
  else if ["人員", "採用", "スタッフ", "人手"].any (fun kw => strContains ql kw) then
    .staffing
  else
    .other

/-- `_infer_issue_topic` (issue_insight_extractor.py lines 103-126).  A truthy
non-string explicit topic raises `AttributeError` at `explicit_topic.lower()`;
an unknown string topic falls through to the keyword table (the `ValueError`
of the enum constructor is caught). -/
def _infer_issue_topic (question : String) (explicit_topic : Option JVal) :
    Except PyErr IssueTopic :=
  match explicit_topic with
  | some v =>
      if v.truthy then
        match v with
        | .jstr s =>
            match issueTopicOfString (pyLower s) with
            | some t => .ok t
            | none => .ok (inferTopicKeywords question)
        | _ => .error (.attributeError "object has no attribute lower")
      else
        .ok (inferTopicKeywords question)
  | none => .ok (inferTopicKeywords question)

/-- `_infer_insight_type` (issue_insight_extractor.py lines 129-136). -/
def _infer_insight_type (v : Option JVal) : Except PyErr InsightType :=
  match v with
  | some w =>
      if w.truthy then
        match w with
        | .jstr s =>
            match insightTypeOfString (pyLower s) with
            | some t => .ok t
            | none => .ok .improvement
        | _ => .error (.attributeError "object has no attribute lower")
      else
        .ok .improvement
  | none => .ok .improvement

/-- An insight candidate as the extractor's result dict holds it; title and
content values come straight from the JSON object, hence `JVal`. -/
structure InsightCand where
  title : JVal
  content : JVal
  itype : InsightType
  score : Int
  deriving DecidableEq, Repr

/-- An issue candidate as the extractor's result dict holds it. -/
structure IssueCand where
  title : JVal
  description : JVal
  topic : IssueTopic
  deriving DecidableEq, Repr

/-- `_extract_insight_from_text` (issue_insight_extractor.py lines 139-183). -/
def _extract_insight_from_text (text : String) : Option InsightCand :=
  let tl := pyLower text
  let base : InsightType × Int :=
    if ["リスク", "危険", "問題", "課題", "懸念", "不安"].any (fun kw => strContains tl kw) then
      (.risk, 70)
    else if ["機会", "チャンス", "伸ばす", "拡大", "成長", "可能性"].any (fun kw => strContains tl kw) then
      (.opportunity, 65)
    else if ["改善", "提案", "推奨", "おすすめ", "試す", "検討"].any (fun kw => strContains tl kw) then
      (.improvement, 60)
    else
      (.improvement, 50)
  let score1 : Int :=
    if ["重要", "緊急", "早急", "すぐ", "今すぐ"].any (fun kw => strContains tl kw) then
      min 100 (base.2 + 20)
    else base.2
  let score2 : Int :=
    if ["軽微", "小さな", "少し"].any (fun kw => strContains tl kw) then
      max 0 (score1 - 10)
    else score1
  if score2 < 60 then
    none
  else
    some { title := .jstr (pyTake (firstLine text) 100),
           content := .jstr (pyTake text 500),
           itype := base.1, score := score2 }

/-- Outcome of the structured-block scan of the model output: the fenced
```json block regex found nothing, the block's body failed `json.loads`
(`json.JSONDecodeError`), or it parsed to the given JSON object. -/
inductive ParseOutcome where
  | noBlock
  | parseFail
  | parsed (obj : List (String × JVal))
  deriving DecidableEq, Repr

/-- The extractor's result dict. -/
structure ExtractResult where
  issue : Option IssueCand
  insight : Option InsightCand
  deriving DecidableEq, Repr

/-- `extract_issue_insight_from_ai_response`
(issue_insight_extractor.py lines 16-90).  On a parsed block the function
builds the result from the block's fields and returns immediately; only a
missing or unparseable block reaches the keyword heuristics.  Only
`json.JSONDecodeError` is caught, so the dynamic-typing errors of the
field-handling code propagate. -/
def extract_issue_insight_from_ai_response (po : ParseOutcome)
    (ai_response user_question : String) : Except PyErr ExtractResult :=
  match po with
  | .parsed j => do
      let issue ←
        if (j.lookup "issue_title").isSome || (j.lookup "issue_description").isSome then do
          let topic ← _infer_issue_topic user_question (j.lookup "issue_topic")
          pure (some { title := (j.lookup "issue_title").getD (.jstr (pyTake user_question 100)),
                       description := (j.lookup "issue_description").getD (.jstr user_question),
                       topic := topic })
        else
          pure none
      let insight ←
        if (j.lookup "insight_title").isSome || (j.lookup "insight_content").isSome then do
          let itype ← _infer_insight_type (j.lookup "insight_type")
          let score ← clampInsightScore ((j.lookup "insight_score").getD (.jint 0))
          pure (some { title := (j.lookup "insight_title").getD (.jstr ""),
                       content := (j.lookup "insight_content").getD (.jstr ""),
                       itype := itype, score := score })
        else
          pure none
      pure { issue := issue, insight := insight }
  | _ => do
      let issue ←
        if _is_issue_like user_question then do
          let topic ← _infer_issue_topic user_question none
          pure (some { title := JVal.jstr (pyTake user_question 100),
                       description := JVal.jstr user_question,
                       topic := topic })
        else
          pure none
      let insight :=
        match _extract_insight_from_text ai_response with
        | some info => if info.score ≥ 60 then some info else none
        | none => none
      pure { issue := issue, insight := insight }

/-! ## Data model (rows the chat turn handler reads and writes) -/

/-- Relevant fields of `Tenant`. -/
structure TenantM where
  id : Nat
  name : String
  deriving DecidableEq, Repr

/-- Relevant fields of `Department` (legacy). -/
structure DepartmentM where
  id : Nat
  code : String
  name : String
  deriving DecidableEq, Repr

/-- Relevant fields of `BusinessUnit`. -/
structure BusinessUnitM where
  id : Nat
  code : String
  name : String
  deriving DecidableEq, Repr

/-- The fields of `TenantSettings` the core consumes; the tier policy is its
string value (see `apply_tier_policy`). -/
structure TenantSettingsM where
  tenant_id : Nat
  ai_tier_policy : String
  ai_company_context : String
  ai_max_tokens_override : Option Nat
  deriving DecidableEq, Repr

/-- Relevant fields of `Conversation`. -/
structure ConversationM where
  id : Nat
  tenant_id : Nat
  user_id : Nat
  business_unit_id : Option Nat
  title : String
  deriving DecidableEq, Repr

/-- Relevant fields of `Message`; list position models creation order. -/
structure MessageM where
  id : Nat
  conversation_id : Nat
  role : String
  content : String
  deriving DecidableEq, Repr

/-- One `AiUsageLog` row (models/ai_usage_log.py, written by `log_ai_usage`). -/
structure UsageLogM where
  tenant_id : Nat
  user_id : Option Nat
  business_unit_id : Option Nat
  purpose : String
  tier : String
  model : String
  tokens_input : Option Nat
  tokens_output : Option Nat
  error : Option String
  conversation_id : Option Nat
  deriving DecidableEq, Repr

/-- One `Issue` row as the handler creates it (status is always OPEN). -/
structure IssueM where
  tenant_id : Nat
  business_unit_id : Option Nat
  title : JVal
  description : JVal
  topic : IssueTopic
  created_by_user_id : Nat
  conversation_id : Option Nat
  deriving DecidableEq, Repr

/-- One `Insight` row as the handler creates it (`created_by` is always
`None`, signalling AI authorship). -/
structure InsightM where
  tenant_id : Nat
  business_unit_id : Option Nat
  title : JVal
  content : JVal
  itype : InsightType
  score : Int
  deriving DecidableEq, Repr

/-- The committed database state visible to the handler.  `next_conv_id` and
`next_msg_id` model the autoincrement id sequences. -/
structure Db where
  tenants : List TenantM
  departments : List DepartmentM
  business_units : List BusinessUnitM
  tenant_settings : List TenantSettingsM
  conversations : List ConversationM
  messages : List MessageM
  usage_logs : List UsageLogM
  issues : List IssueM
  insights : List InsightM
  next_conv_id : Nat
  next_msg_id : Nat
  deriving DecidableEq, Repr

/-- The authenticated `User` as supplied by the auth dependency. -/
structure UserM where
  id : Nat
  tenant_id : Option Nat
  business_unit_id : Option Nat
  department_id : Option Nat
  role : String
  deriving DecidableEq, Repr

/-- `AIChatRequestV2` (api/ai_chat.py lines 50-55). -/
structure ChatRequest where
  message : String
  conversation_id : Option Nat
  business_unit_id : Option Nat
  mode : Option String
  deriving DecidableEq, Repr

/-- The process-wide settings the subsystem reads. -/
structure Settings where
  anthropic_api_key : String
  model_basic : String
  model_standard : String
  model_premium : String
  ai_model_staff : String
  deriving DecidableEq, Repr

/-- The per-tier model identifier (`AiClientFactory.get_tier_config`). -/
def tier_model (s : Settings) : AiTier → String
  | .basic => s.model_basic
  | .standard => s.model_standard
  | .premium => s.model_premium

/-- `AnthropicClient.__init__`'s model resolution (anthropic_client.py
line 45): `model or settings.ANTHROPIC_MODEL_STANDARD or
"claude-3-haiku-20240307"`. -/
def anthropic_model (s : Settings) (m : String) : String :=
  pyOr (pyOr m s.model_standard) "claude-3-haiku-20240307"

/-- `AiClientFactory.create_for_purpose_with_policy` (client.py lines
280-331), reduced to the model identifier of the constructed client; raises
`ValueError` on a missing model identifier or missing API key. -/
def create_for_purpose_with_policy (s : Settings) (purpose tier_policy : String) :
    Except PyErr String := do
  let tier := get_tier_for_purpose purpose
  let effective_tier := apply_tier_policy tier tier_policy
  let model := tier_model s effective_tier
  if model = "" then
    .error (.valueError ("AI model not configured for tier '" ++
      effective_tier.val ++ "'. Please set ANTHROPIC_MODEL_" ++
      pyUpper effective_tier.val ++ " environment variable."))
  else if s.anthropic_api_key = "" then
    .error (.valueError ("ANTHROPIC_API_KEY is not set. Please configure it " ++
      "via environment variable or Secret Manager."))
  else
    pure (anthropic_model s model)

/-- `AiClientFactory.create()` for the default `anthropic` provider
(client.py lines 179-183); never raises. -/
def factory_create (s : Settings) : String :=
  anthropic_model s (pyOr s.model_standard s.ai_model_staff)

/-- `AiClientFactory.get_staff_client` for the default `anthropic` provider
(client.py lines 194-217); raises `ValueError` when the API key is unset. -/
def get_staff_client (s : Settings) : Except PyErr String :=
  let model := pyOr (pyOr s.model_standard s.ai_model_staff)
    "claude-3-haiku-20240307"
  if s.anthropic_api_key = "" then
    .error (.valueError ("ANTHROPIC_API_KEY is not set. Please configure it " ++
      "via environment variable or Secret Manager."))
  else
    .ok (anthropic_model s model)

/-- The metadata an AI service object exposes for usage logging
(`purpose`, `effective_tier`, `model_name`). -/
structure AiSvc where
  purpose : String
  effective_tier : String
  model : String
  deriving DecidableEq, Repr

/-- `StaffQAService.__init__` (staff_qa_service.py lines 47-82). -/
def StaffQAService.mk (s : Settings) (ts : Option TenantSettingsM) :
    Except PyErr AiSvc :=
  match ts with
  | some t =>
      if t.ai_tier_policy ≠ "" then do
        let model ← create_for_purpose_with_policy s "staff_qa" t.ai_tier_policy
        pure { purpose := "staff_qa",
               effective_tier :=
                 (apply_tier_policy (get_tier_for_purpose "staff_qa")
                   t.ai_tier_policy).val,
               model := model }
      else do
        let model ← get_staff_client s
        pure { purpose := "staff_qa",
               effective_tier := (get_tier_for_purpose "staff_qa").val,
               model := model }
  | none => do
      let model ← get_staff_client s
      pure { purpose := "staff_qa",
             effective_tier := (get_tier_for_purpose "staff_qa").val,
             model := model }

/-- `AIServiceV2.__init__` (ai_service_v2.py lines 34-67). -/
def AIServiceV2.mk (s : Settings) (ts : Option TenantSettingsM) :
    Except PyErr AiSvc :=
  match ts with
  | some t =>
      if t.ai_tier_policy ≠ "" then do
        let model ← create_for_purpose_with_policy s "management_decision"
          t.ai_tier_policy
        pure { purpose := "management_decision",
               effective_tier :=
                 (apply_tier_policy (get_tier_for_purpose "management_decision")
                   t.ai_tier_policy).val,
               model := model }
      else
        pure { purpose := "management_decision",
               effective_tier := (get_tier_for_purpose "management_decision").val,
               model := factory_create s }
  | none =>
      pure { purpose := "management_decision",
             effective_tier := (get_tier_for_purpose "management_decision").val,
             model := factory_create s }

/-- The fixed fallback apology of `AIServiceV2._fallback_response`
(ai_service_v2.py lines 341-362). -/
def fallback_response : String :=
  "ご質問ありがとうございます。現在、AIサービスが一時的に利用できない状態です。" ++
  "しばらくしてから再度お試しいただくか、管理者にお問い合わせください。"

/-- `AIServiceV2.generate_answer`'s outer error handling (ai_service_v2.py
lines 252-339): every exception from the backend call is caught and replaced
by the fixed fallback string. -/
def generate_answer (s : Settings) (outcome : HttpOutcome) : String :=
  match anthropic_generate_reply (s.anthropic_api_key ≠ "") outcome with
  | .ok answer => answer
  | .error _ => fallback_response

/-- `StaffQAService.answer_staff_question`'s error handling
(staff_qa_service.py lines 229-321): `ValueError`s mentioning the API key or
a missing model are rewrapped with an error code, other `ValueError`s are
re-raised as they are, and every other exception becomes a generic
`ai_error` `ValueError`. -/
def answer_staff_question (backend : Except PyErr String) :
    Except PyErr String :=
  match backend with
  | .ok answer => .ok answer
  | .error (.valueError m) =>
      if strContains m "ANTHROPIC_API_KEY" then
        .error (.valueError ("ai_not_configured:AIサービスの設定が完了していません。" ++
          "管理者に ANTHROPIC_API_KEY の設定を依頼してください。"))
      else if strContains (pyLower m) "model not configured" then
        .error (.valueError ("ai_not_configured:AIモデルの設定が完了していません。" ++
          "管理者に ANTHROPIC_MODEL_* の設定を依頼してください。"))
      else
        .error (.valueError m)
  | .error _ =>
      .error (.valueError ("ai_error:AIサービスで問題が発生しました。" ++
        "しばらくしてから再度お試しください。"))

/-! ## Chat turn handler (`app/api/ai_chat.py`, `create_ai_chat_v2`) -/

/-- What the handler hands back to the HTTP layer: the v2 response on
success, an `HTTPException` with a plain or coded detail, or an unhandled
exception (which the framework turns into a generic 500). -/
inductive HandlerResult where
  | ok (conversation_id : Nat) (reply : String) (message_id : Nat)
  | httpError (code : Nat) (detail : String)
  | httpErrorCoded (code : Nat) (error_code : String) (message : String)
  | pyError (e : PyErr)
  deriving DecidableEq, Repr

/-- Tenant resolution (ai_chat.py lines 151-163): the user's tenant id if
truthy, else the tenant named `mikamo`, else the 500 branch (`none`). -/
def resolve_tenant (db : Db) (user : UserM) : Option Nat :=
  match optTruthy user.tenant_id with
  | some tid => some tid
  | none => (db.tenants.find? (fun t => t.name = "mikamo")).map (fun t => t.id)

/-- Business-unit resolution (ai_chat.py lines 165-191).  Returns the final
`business_unit_id` variable and the loaded `BusinessUnit` row (if any);
`none` is the 404 branch reached when an id is set but matches neither a
business unit nor a legacy department. -/
def resolve_business_unit (db : Db) (user : UserM) (req : ChatRequest) :
    Option (Option Nat × Option BusinessUnitM) :=
  let bu_id : Option Nat :=
    match optTruthy req.business_unit_id with
    | some b => some b
    | none =>
        match optTruthy user.business_unit_id with
        | some b => some b
        | none =>
            match user.department_id.bind
                (fun d => db.departments.find? (fun dep => dep.id = d)) with
            | some dept =>
                match db.business_units.find? (fun bu => bu.code = dept.code) with
                | some bu => some bu.id
                | none => none
            | none => none
  match optTruthy bu_id with
  | some b =>
      match db.business_units.find? (fun bu => bu.id = b) with
      | some bu => some (bu_id, some bu)
      | none =>
          match db.departments.find? (fun dep => dep.id = b) with
          | some _ => some (bu_id, none)
          | none => none
  | none => some (bu_id, none)

/-- Conversation lookup with ownership check (ai_chat.py lines 195-201).  A
supplied id must name a conversation owned by the requesting user; `none`
is the 404 branch. -/
def find_owned_conversation (db : Db) (user : UserM) (cid : Nat) :
    Option ConversationM :=
  match db.conversations.find? (fun c => c.id = cid) with
  | some conv => if conv.user_id = user.id then some conv else none
  | none => none

/-- Conversation load-or-create, continued: with no (truthy) id a new
conversation is created and committed at once. -/
def load_or_create_conversation (db : Db) (tenant_id : Nat) (user : UserM)
    (req : ChatRequest) (bu_id : Option Nat) (bu : Option BusinessUnitM) :
    Option (ConversationM × Db) :=
  match optTruthy req.conversation_id with
  | some cid =>
      match find_owned_conversation db user cid with
      | some conv => some (conv, db)
      | none => none
  | none =>
      let conv : ConversationM :=
        { id := db.next_conv_id, tenant_id := tenant_id, user_id := user.id,
          business_unit_id := if bu.isSome then bu_id else none,
          title := pyTake req.message 50 }
      some (conv, { db with conversations := db.conversations ++ [conv],
                            next_conv_id := db.next_conv_id + 1 })

/-- Mode selection (ai_chat.py lines 260-266): only the explicit value
`"staff_qa"` selects staff-QA mode; otherwise the roles `staff` and
`manager` default to it. -/
def select_use_staff_qa (mode : Option String) (role : String) : Bool :=
  if mode = some "staff_qa" then
    true
  else if role == "staff" || role == "manager" then
    true
  else
    false

/-- The `except ValueError` branch of the staff-QA path (ai_chat.py lines
309-329): a `code:message` error becomes a 503 with that code, anything else
a 500 with code `ai_error`.  The handler raises here, so nothing after it
(usage logging, message persistence) runs. -/
def staff_error_result (m : String) : HandlerResult :=
  if strContains m ":" then
    let p := splitFirstColon m
    .httpErrorCoded 503 p.1 p.2
  else
    .httpErrorCoded 500 "ai_error" m

/-- The staff-QA `try` body (ai_chat.py lines 280-307): service construction
followed by the backend call, both raising `ValueError` on failure. -/
def staff_qa_run (s : Settings) (ts : Option TenantSettingsM)
    (outcome : HttpOutcome) : Except PyErr (AiSvc × String) := do
  let svc ← StaffQAService.mk s ts
  let answer ← answer_staff_question
    (anthropic_generate_reply (s.anthropic_api_key ≠ "") outcome)
  pure (svc, answer)

/-- Python slicing `v[:n]` on a result-dict value: only strings are
subscriptable. -/
def jSlice (v : JVal) (n : Nat) : Except PyErr String :=
  match v with
  | .jstr s => .ok (pyTake s n)
  | _ => .error (.typeError "object is not subscriptable")

/-- Substring check used by the dedup query's `contains` clauses. -/
def jContainsStr (hay : JVal) (needle : String) : Bool :=
  match hay with
  | .jstr h => strContains h needle
  | _ => false

/-- The dedup query of issue creation (ai_chat.py lines 421-430): is there
an existing issue whose title or description contains the candidate's
truncated title or description?  When `business_unit` is `None` the source
passes the bare `None` produced by `Issue.business_unit_id ==
business_unit_id if business_unit else None` as a where-argument; SQLAlchemy
coerces it to the SQL `NULL` literal, so `WHERE NULL AND (...)` matches no
rows and the dedup never hits on that path. -/
def issue_dedup_hit (db : Db) (bu_id : Option Nat) (bu : Option BusinessUnitM)
    (t50 d100 : String) : Bool :=
  if bu.isNone then
    false
  else
    (db.issues.find? (fun i =>
      i.business_unit_id == bu_id &&
      (jContainsStr i.title t50 || jContainsStr i.description d100))).isSome

/-- Issue creation (ai_chat.py lines 419-444), returning the resulting issue
table (the only table it touches).  The title/description slices are
evaluated while building the dedup query and raise on non-string values. -/
def issue_persist (db : Db) (tenant_id : Nat) (bu_id : Option Nat)
    (bu : Option BusinessUnitM) (user : UserM) (conv : ConversationM)
    (ic : Option IssueCand) : Except PyErr (List IssueM) :=
  match ic with
  | none => .ok db.issues
  | some c =>
      match jSlice c.title 50, jSlice c.description 100 with
      | .error e, _ => .error e
      | .ok _, .error e => .error e
      | .ok t50, .ok d100 =>
          if issue_dedup_hit db bu_id bu t50 d100 then
            .ok db.issues
          else
            .ok (db.issues ++
              [{ tenant_id := tenant_id,
                 business_unit_id := if bu.isSome then bu_id else none,
                 title := c.title, description := c.description,
                 topic := c.topic, created_by_user_id := user.id,
                 conversation_id := some conv.id }])

/-- The usage-log row and the two message rows the turn adds before the
final commit (ai_chat.py lines 375-409): `log_ai_usage` runs only when
purpose, tier and model are all truthy, then the user and assistant messages
are appended in that order. -/
def turn_pending_db (db1 : Db) (user : UserM) (req : ChatRequest)
    (tenant_id : Nat) (bu_id : Option Nat) (bu : Option BusinessUnitM)
    (conv : ConversationM) (purpose tier model : String)
    (tokens_input tokens_output : Option Nat) (ai_error : Option String)
    (answer : String) : Db :=
  let usage_rows : List UsageLogM :=
    if purpose ≠ "" ∧ tier ≠ "" ∧ model ≠ "" then
      [{ tenant_id := tenant_id, user_id := some user.id,
         business_unit_id := if bu.isSome then bu_id else none,
         purpose := purpose, tier := tier, model := model,
         tokens_input := tokens_input, tokens_output := tokens_output,
         error := ai_error, conversation_id := some conv.id }]
    else []
  { db1 with usage_logs := db1.usage_logs ++ usage_rows,
             messages := db1.messages ++
               [{ id := db1.next_msg_id, conversation_id := conv.id,
                  role := "user", content := req.message },
                { id := db1.next_msg_id + 1, conversation_id := conv.id,
                  role := "assistant", content := answer }],
             next_msg_id := db1.next_msg_id + 2 }

/-- The insight row the turn adds when the extracted candidate scores at
least 60 (ai_chat.py lines 446-459). -/
def insight_rows (tenant_id : Nat) (bu_id : Option Nat)
    (bu : Option BusinessUnitM) (ext : ExtractResult) : List InsightM :=
  match ext.insight with
  | some ins =>
      if ins.score ≥ 60 then
        [{ tenant_id := tenant_id,
           business_unit_id := if bu.isSome then bu_id else none,
           title := ins.title, content := ins.content,
           itype := ins.itype, score := ins.score }]
      else []
  | none => []

/-- The tail of a successful turn (ai_chat.py lines 375-468): usage logging,
message persistence, extraction, issue/insight creation, and the final
commit.  An exception from extraction or the dedup query aborts before the
commit, so the pending rows are discarded and only `db1` (which already
holds a freshly created conversation) remains. -/
def persist_turn (db1 : Db) (user : UserM) (req : ChatRequest)
    (tenant_id : Nat) (bu_id : Option Nat) (bu : Option BusinessUnitM)
    (conv : ConversationM) (purpose tier model : String)
    (tokens_input tokens_output : Option Nat) (ai_error : Option String)
    (answer : String) (jsonScan : String → ParseOutcome) :
    HandlerResult × Db :=
  match extract_issue_insight_from_ai_response (jsonScan answer) answer
      req.message with
  | .error e => (.pyError e, db1)
  | .ok ext =>
      match issue_persist
          (turn_pending_db db1 user req tenant_id bu_id bu conv purpose tier
            model tokens_input tokens_output ai_error answer)
          tenant_id bu_id bu user conv ext.issue with
      | .error e => (.pyError e, db1)
      | .ok issues4 =>
          (.ok conv.id answer (db1.next_msg_id + 1),
           { turn_pending_db db1 user req tenant_id bu_id bu conv purpose tier
               model tokens_input tokens_output ai_error answer with
             issues := issues4,
             insights := db1.insights ++ insight_rows tenant_id bu_id bu ext })

/-- `TenantSettings` lookup for the AI services (ai_chat.py lines 281-285
and 332-337).  `outcome` below is the result of the single HTTPS exchange
the turn performs (if it performs one); `jsonScan` is the structured-block
scan `re.search`/`json.loads` applied to the answer text. -/
def tenant_ts (db1 : Db) (tenant_id : Nat) : Option TenantSettingsM :=
  if tenant_id ≠ 0 then
    db1.tenant_settings.find? (fun t => t.tenant_id = tenant_id)
  else none

/-- The mode branch of the handler (ai_chat.py lines 260-373): staff-QA mode
runs the staff service inside a `try`/`except ValueError`; management mode
constructs `AIServiceV2` unguarded (its construction errors are unhandled)
and then calls `generate_answer`, which never raises. -/
def dispatch_and_persist (s : Settings) (db1 : Db) (user : UserM)
    (req : ChatRequest) (tenant_id : Nat) (bu_id : Option Nat)
    (bu : Option BusinessUnitM) (conv : ConversationM) (outcome : HttpOutcome)
    (jsonScan : String → ParseOutcome) : HandlerResult × Db :=
  if select_use_staff_qa req.mode user.role then
    match staff_qa_run s (tenant_ts db1 tenant_id) outcome with
    | .error (.valueError m) => (staff_error_result m, db1)
    | .error e => (.pyError e, db1)
    | .ok (svc, answer) =>
        persist_turn db1 user req tenant_id bu_id bu conv svc.purpose
          svc.effective_tier svc.model (tokens_of outcome).1
          (tokens_of outcome).2 none answer jsonScan
  else
    match AIServiceV2.mk s (tenant_ts db1 tenant_id) with
    | .error e => (.pyError e, db1)
    | .ok svc =>
        persist_turn db1 user req tenant_id bu_id bu conv svc.purpose
          svc.effective_tier svc.model (tokens_of outcome).1
          (tokens_of outcome).2 none (generate_answer s outcome) jsonScan

/-- `create_ai_chat_v2` (ai_chat.py lines 136-468): the stage pipeline. -/
def create_ai_chat_v2 (s : Settings) (db : Db) (user : UserM)
    (req : ChatRequest) (outcome : HttpOutcome)
    (jsonScan : String → ParseOutcome) : HandlerResult × Db :=
  match resolve_tenant db user with
  | none => (.httpError 500 "テナントが見つかりません", db)
  | some tenant_id =>
    match resolve_business_unit db user req with
    | none => (.httpError 404 "事業部門が見つかりません", db)
    | some (bu_id, bu) =>
      match load_or_create_conversation db tenant_id user req bu_id bu with
      | none => (.httpError 404 "会話が見つかりません", db)
      | some (conv, db1) =>
        dispatch_and_persist s db1 user req tenant_id bu_id bu conv outcome
          jsonScan

/-- `get_conversation_messages` (ai_chat.py lines 507-534): 404 unless the
conversation exists and belongs to the requesting user, else the
conversation's messages in creation order. -/
def get_conversation_messages (db : Db) (user : UserM)
    (conversation_id : Nat) : Except (Nat × String) (List MessageM) :=
  match db.conversations.find? (fun c => c.id = conversation_id) with
  | some conv =>
      if conv.user_id = user.id then
        .ok (db.messages.filter (fun m => m.conversation_id = conversation_id))
      else
        .error (404, "会話が見つかりません")
  | none => .error (404, "会話が見つかりません")

/-! ## Concrete fixtures used by witnesses and counterexamples -/

/-- Shared concrete fixture: a configured settings object. -/
def s0 : Settings :=
  { anthropic_api_key := "sk-test", model_basic := "claude-b",
    model_standard := "claude-s", model_premium := "claude-p",
    ai_model_staff := "" }

/-- Shared concrete fixture: a database holding one business unit and
nothing else. -/
def db0 : Db :=
  { tenants := [], departments := [],
    business_units := [{ id := 2, code := "cafe", name := "カフェ" }],
    tenant_settings := [], conversations := [], messages := [],
    usage_logs := [], issues := [], insights := [],
    next_conv_id := 1, next_msg_id := 1 }

/-- Shared concrete fixture: a staff-role user of tenant 1 in business
unit 2. -/
def user0 : UserM :=
  { id := 10, tenant_id := some 1, business_unit_id := some 2,
    department_id := none, role := "staff" }

/-- Shared concrete fixture: `db0` plus a conversation owned by user 99. -/
def db_other : Db :=
  { db0 with conversations := [{ id := 5, tenant_id := 1, user_id := 99,
                                 business_unit_id := none,
                                 title := "他人の会話" }] }

/-- Shared concrete fixture: an executive-role user (management mode by
default). -/
def user_mgr : UserM :=
  { id := 11, tenant_id := some 1, business_unit_id := some 2,
    department_id := none, role := "executive" }

/-! ## Helper lemmas -/

/-- On the heuristic path the extractor never raises and its result has the
closed form below. -/
lemma extract_heuristic_eq (po : ParseOutcome) (a q : String)
    (hpo : po = .noBlock ∨ po = .parseFail) :
    extract_issue_insight_from_ai_response po a q =
      .ok { issue :=
              if _is_issue_like q then
                some { title := JVal.jstr (pyTake q 100),
                       description := JVal.jstr q,
                       topic := inferTopicKeywords q }
              else none,
            insight :=
              match _extract_insight_from_text a with
              | some info => if info.score ≥ 60 then some info else none
              | none => none } := by
  rcases hpo with h | h <;> subst h <;>
    (unfold extract_issue_insight_from_ai_response;
     cases hq : _is_issue_like q <;> rfl)

/-- `issue_persist` succeeds on heuristic candidates (string-valued title and
description). -/
lemma issue_persist_jstr_ok (db : Db) (tenant_id : Nat) (bu_id : Option Nat)
    (bu : Option BusinessUnitM) (user : UserM) (conv : ConversationM)
    (t d : String) (topic : IssueTopic) :
    ∃ l, issue_persist db tenant_id bu_id bu user conv
        (some { title := JVal.jstr t, description := JVal.jstr d, topic := topic })
        = .ok l := by
  unfold issue_persist jSlice
  by_cases hc : issue_dedup_hit db bu_id bu (pyTake t 50) (pyTake d 100) = true <;>
    simp [hc]

/-- `persist_turn` either aborts with an unhandled exception and the
pre-commit state, or succeeds with the pending usage/message rows plus the
extraction's issue/insight rows. -/
lemma persist_turn_cases (db1 : Db) (user : UserM) (req : ChatRequest)
    (tenant_id : Nat) (bu_id : Option Nat) (bu : Option BusinessUnitM)
    (conv : ConversationM) (purpose tier model : String)
    (ti tko : Option Nat) (ae : Option String) (answer : String)
    (jsonScan : String → ParseOutcome) :
    (∃ e, persist_turn db1 user req tenant_id bu_id bu conv purpose tier model
        ti tko ae answer jsonScan = (.pyError e, db1) ∧
      (extract_issue_insight_from_ai_response (jsonScan answer) answer
          req.message = .error e ∨
       ∃ ext, extract_issue_insight_from_ai_response (jsonScan answer) answer
          req.message = .ok ext ∧
        issue_persist (turn_pending_db db1 user req tenant_id bu_id bu conv
            purpose tier model ti tko ae answer) tenant_id bu_id bu user conv
            ext.issue = .error e)) ∨
    (∃ ext issues4,
      extract_issue_insight_from_ai_response (jsonScan answer) answer
        req.message = .ok ext ∧
      persist_turn db1 user req tenant_id bu_id bu conv purpose tier model
        ti tko ae answer jsonScan
        = (.ok conv.id answer (db1.next_msg_id + 1),
           { turn_pending_db db1 user req tenant_id bu_id bu conv purpose tier
               model ti tko ae answer with
             issues := issues4,
             insights := db1.insights ++ insight_rows tenant_id bu_id bu ext })) := by
  cases hE : extract_issue_insight_from_ai_response (jsonScan answer) answer
      req.message with
  | error e => exact .inl ⟨e, by simp [persist_turn, hE], .inl rfl⟩
  | ok ext =>
      cases hI : issue_persist
          (turn_pending_db db1 user req tenant_id bu_id bu conv purpose tier
            model ti tko ae answer) tenant_id bu_id bu user conv ext.issue with
      | error e =>
          exact .inl ⟨e, by simp [persist_turn, hE, hI], .inr ⟨ext, rfl, hI⟩⟩
      | ok issues4 => exact .inr ⟨ext, issues4, rfl, by simp [persist_turn, hE, hI]⟩

/-! ## Claim theorems -/

/-- C2: for every tier t, `apply_tier_policy t ALL = t`; STANDARD_MAX
downgrades PREMIUM to STANDARD and leaves STANDARD and BASIC unchanged;
BASIC_ONLY forces every tier to BASIC; and every policy value outside the
enumeration resolves to STANDARD without failing the caller. -/
theorem C2_apply_tier_policy :
    (∀ t : AiTier, apply_tier_policy t "all" = t) ∧
    apply_tier_policy .premium "standard_max" = .standard ∧
    apply_tier_policy .standard "standard_max" = .standard ∧
    apply_tier_policy .basic "standard_max" = .basic ∧
    (∀ t : AiTier, apply_tier_policy t "basic_only" = .basic) ∧
    (∀ (t : AiTier) (p : String),
      p ≠ "all" → p ≠ "standard_max" → p ≠ "basic_only" →
      apply_tier_policy t p = .standard) := by
  refine ⟨?_, rfl, rfl, rfl, ?_, ?_⟩
  · intro t; cases t <;> rfl
  · intro t; cases t <;> rfl
  · intro t p h1 h2 h3
    simp [apply_tier_policy, h1, h2, h3]

/-- Witness for C2: a concrete unknown policy resolves to STANDARD. -/
theorem C2_apply_tier_policy_witness :
    apply_tier_policy .premium "unlimited" = .standard ∧
    apply_tier_policy .basic "all" = .basic :=
  ⟨C2_apply_tier_policy.2.2.2.2.2 .premium "unlimited"
     (by decide) (by decide) (by decide),
   C2_apply_tier_policy.1 .basic⟩

/-- C3: `get_tier_for_purpose` is a case-insensitive lookup in the fixed
`PURPOSE_TO_TIER` table (staff_qa maps to STANDARD, management_decision to
PREMIUM, and case variants agree); every purpose whose lowering misses the
table yields STANDARD; the function is total, pure and deterministic. -/
theorem C3_resolve_tier :
    (∀ p : String, get_tier_for_purpose p =
      (PURPOSE_TO_TIER.lookup (pyLower p)).getD .standard) ∧
    get_tier_for_purpose "staff_qa" = .standard ∧
    get_tier_for_purpose "management_decision" = .premium ∧
    get_tier_for_purpose "STAFF_QA" = .standard ∧
    get_tier_for_purpose "Management_Decision" = .premium ∧
    (∀ p : String, PURPOSE_TO_TIER.lookup (pyLower p) = none →
      get_tier_for_purpose p = .standard) ∧
    (∀ (p : String) (t : AiTier), PURPOSE_TO_TIER.lookup (pyLower p) = some t →
      get_tier_for_purpose p = t) ∧
    (∀ p : String, get_tier_for_purpose p = get_tier_for_purpose p) := by
  refine ⟨?_, by decide, by decide, by decide, by decide, ?_, ?_, fun _ => rfl⟩
  · intro p
    unfold get_tier_for_purpose
    cases h : PURPOSE_TO_TIER.lookup (pyLower p) <;> simp [h]
  · intro p h
    unfold get_tier_for_purpose
    rw [h]
  · intro p t h
    unfold get_tier_for_purpose
    rw [h]

/-- Witness for C3: a purpose absent from the table resolves to STANDARD,
and a known purpose in mixed case resolves to its table tier. -/
theorem C3_resolve_tier_witness :
    get_tier_for_purpose "mystery_purpose" = .standard ∧
    get_tier_for_purpose "DX_Report" = .premium :=
  ⟨C3_resolve_tier.2.2.2.2.2.1 "mystery_purpose" (by decide),
   C3_resolve_tier.2.2.2.2.2.2.1 "DX_Report" .premium (by decide)⟩

/-- C9 counterexample: on HTTP 401, HTTP 429, HTTP 400 and on timeout,
`generate_reply` raises errors of the same classification (all are the
single class `ValueError`), so the four cases do not each map to their own
distinct error classification. -/
theorem C9_counterexample :
    (raisedErr (anthropic_generate_reply true (.status 401 "auth"))).map
        PyErr.klass
      = (raisedErr (anthropic_generate_reply true .timeout)).map PyErr.klass ∧
    (raisedErr (anthropic_generate_reply true (.status 400 "bad"))).map
        PyErr.klass
      = (raisedErr (anthropic_generate_reply true (.status 429 "limit"))).map
        PyErr.klass ∧
    (raisedErr (anthropic_generate_reply true .timeout)).map PyErr.klass
      = some "ValueError" := by
  decide

/-- C9 (amended): 401, 429, 400 and timeout all raise `ValueError`; they are
distinguishable only by their message strings, which are fixed and pairwise
distinct for 401, 429 and timeout, while 400 carries the remote-reported
detail after a fixed prefix. -/
theorem C9_error_messages :
    anthropic_generate_reply true .timeout
      = .error (.valueError ("Anthropic API request timed out. " ++
          "The AI service may be experiencing high load.")) ∧
    (∀ d, anthropic_generate_reply true (.status 401 d)
      = .error (.valueError ("Anthropic API authentication failed. " ++
          "Please check ANTHROPIC_API_KEY is correctly set."))) ∧
    (∀ d, anthropic_generate_reply true (.status 429 d)
      = .error (.valueError ("Anthropic API rate limit exceeded. " ++
          "Please try again later."))) ∧
    (∀ d, anthropic_generate_reply true (.status 400 d)
      = .error (.valueError ("Anthropic API bad request: " ++ d))) ∧
    ("Anthropic API request timed out. " ++
        "The AI service may be experiencing high load." : String)
      ≠ "Anthropic API authentication failed. " ++
        "Please check ANTHROPIC_API_KEY is correctly set." ∧
    ("Anthropic API request timed out. " ++
        "The AI service may be experiencing high load." : String)
      ≠ "Anthropic API rate limit exceeded. Please try again later." ∧
    ("Anthropic API authentication failed. " ++
        "Please check ANTHROPIC_API_KEY is correctly set." : String)
      ≠ "Anthropic API rate limit exceeded. Please try again later." := by
  refine ⟨rfl, fun d => rfl, fun d => rfl, fun d => rfl, by decide, by decide,
    by decide⟩

/-- C4 counterexample: a well-formed structured block carrying
`insight_score: 10` makes the extraction result contain an insight candidate
with score 10, so the result holds a candidate scoring below 60 on the
structured-block path. -/
theorem C4_counterexample :
    extract_issue_insight_from_ai_response
      (.parsed [("insight_title", JVal.jstr "値上げの提案"),
                ("insight_content", JVal.jstr "検討内容"),
                ("insight_type", JVal.jstr "risk"),
                ("insight_score", JVal.jint 10)])
      "モデル出力" "質問"
      = .ok { issue := none,
              insight := some { title := JVal.jstr "値上げの提案",
                                content := JVal.jstr "検討内容",
                                itype := InsightType.risk, score := 10 } } ∧
    (10 : Int) < 60 := by
  exact ⟨rfl, by decide⟩

/-- C4 (amended): on the keyword-heuristic paths (no structured block, or an
unparseable one) an insight candidate is returned only with score ≥ 60 — a
computed score below 60 leaves the slot empty and a score of exactly 60
yields a candidate — while on the structured-block path the candidate is
returned with its clamped score regardless of the threshold (the ≥ 60 gate
is applied later, by the caller, before persisting an Insight row). -/
theorem C4_insight_threshold :
    (∀ (po : ParseOutcome) (a q : String) (r : ExtractResult) (c : InsightCand),
        po = .noBlock ∨ po = .parseFail →
        extract_issue_insight_from_ai_response po a q = .ok r →
        r.insight = some c → 60 ≤ c.score) ∧
    (extract_issue_insight_from_ai_response .noBlock "業務を改善しましょう" "こんにちは"
      = .ok { issue := none,
              insight := some { title := JVal.jstr "業務を改善しましょう",
                                content := JVal.jstr "業務を改善しましょう",
                                itype := InsightType.improvement,
                                score := 60 } }) ∧
    (extract_issue_insight_from_ai_response .noBlock "こんにちは" "こんにちは"
      = .ok { issue := none, insight := none }) ∧
    (∀ (a q title : String) (n : Int),
        extract_issue_insight_from_ai_response
          (.parsed [("insight_title", JVal.jstr title),
                    ("insight_score", JVal.jint n)]) a q
        = .ok { issue := none,
                insight := some { title := JVal.jstr title,
                                  content := JVal.jstr "",
                                  itype := InsightType.improvement,
                                  score := min 100 (max 0 n) } }) := by
  refine ⟨?_, rfl, rfl, fun a q title n => rfl⟩
  intro po a q r c hpo hr hc
  rw [extract_heuristic_eq po a q hpo] at hr
  injection hr with hr'
  subst hr'
  rcases hI : _extract_insight_from_text a with _ | info
  · rw [hI] at hc
    simp at hc
  · rw [hI] at hc
    by_cases hs : 60 ≤ info.score
    · simp only [ge_iff_le, hs, if_true] at hc
      injection hc with hc'
      subst hc'
      exact hs
    · simp only [ge_iff_le, hs, if_false] at hc
      simp at hc

/-- Witness for C4: a heuristic candidate at the boundary score of 60 exists
and satisfies the threshold. -/
theorem C4_insight_threshold_witness :
    extract_issue_insight_from_ai_response .noBlock "検討します" "こんにちは"
      = .ok { issue := none,
              insight := some { title := JVal.jstr "検討します",
                                content := JVal.jstr "検討します",
                                itype := InsightType.improvement,
                                score := 60 } } ∧
    60 ≤ (60 : Int) :=
  ⟨rfl,
   C4_insight_threshold.1 .noBlock "検討します" "こんにちは"
     { issue := none,
       insight := some { title := JVal.jstr "検討します",
                         content := JVal.jstr "検討します",
                         itype := InsightType.improvement, score := 60 } }
     { title := JVal.jstr "検討します", content := JVal.jstr "検討します",
       itype := InsightType.improvement, score := 60 }
     (Or.inl rfl) rfl rfl⟩

/-- C5: a structured block that parses as JSON but carries an ill-typed
field value (a string `insight_score`) raises an uncaught `TypeError`
instead of falling through to the heuristic mode; an unparseable block, by
contrast, does recover and fall through to the keyword heuristics. -/
theorem C5_illtyped_block_raises :
    extract_issue_insight_from_ai_response
      (.parsed [("insight_title", JVal.jstr "提案"),
                ("insight_score", JVal.jstr "high")])
      "モデル出力テキスト" "質問テキスト"
      = .error (.typeError "unsupported operand types for max") ∧
    extract_issue_insight_from_ai_response .parseFail
      "このリスクは重要です" "売上データを見せて"
      = .ok { issue := none,
              insight := some { title := JVal.jstr "このリスクは重要です",
                                content := JVal.jstr "このリスクは重要です",
                                itype := InsightType.risk, score := 90 } } := by
  exact ⟨rfl, rfl⟩

/-- C1: when the backend raises its authentication error (HTTP 401) on a
staff-QA turn, the handler does return a 503 service-unavailable response
and persists no assistant message — but, contrary to the claim, it raises
before `log_ai_usage` runs, so no `UsageRecord` at all is written (the
`ai_error` assignment at ai_chat.py line 311 is dead). -/
theorem C1_auth_error_turn :
    create_ai_chat_v2 s0 db0 user0
      { message := "質問です", conversation_id := none,
        business_unit_id := none, mode := some "staff_qa" }
      (.status 401 "invalid x-api-key") (fun _ => .noBlock)
    = (.httpErrorCoded 503 "ai_not_configured"
        "AIサービスの設定が完了していません。管理者に ANTHROPIC_API_KEY の設定を依頼してください。",
       { db0 with conversations := [{ id := 1, tenant_id := 1, user_id := 10,
                                      business_unit_id := some 2,
                                      title := "質問です" }],
                  next_conv_id := 2 }) ∧
    (create_ai_chat_v2 s0 db0 user0
      { message := "質問です", conversation_id := none,
        business_unit_id := none, mode := some "staff_qa" }
      (.status 401 "invalid x-api-key") (fun _ => .noBlock)).2.usage_logs = [] ∧
    (create_ai_chat_v2 s0 db0 user0
      { message := "質問です", conversation_id := none,
        business_unit_id := none, mode := some "staff_qa" }
      (.status 401 "invalid x-api-key") (fun _ => .noBlock)).2.messages = [] := by
  exact ⟨by decide, by decide, by decide⟩

/-- C8 counterexample: a request that explicitly specifies the mode
`management_decision` from a staff-role user is still routed to staff-QA
mode — the explicit mode does not win, so the backend purpose recorded in
the usage log is `staff_qa`, not `management_decision`. -/
theorem C8_counterexample :
    select_use_staff_qa (some "management_decision") "staff" = true ∧
    ((create_ai_chat_v2 s0 db0 user0
        { message := "テスト", conversation_id := none,
          business_unit_id := none, mode := some "management_decision" }
        (.ok "はい" (some 5) (some 7)) (fun _ => .noBlock)).2.usage_logs.map
          (fun u => u.purpose)) = ["staff_qa"] := by
  exact ⟨by decide, by decide⟩

/-- C8 (amended): only the explicit mode value `staff_qa` wins over the
role-based default; any other caller-specified mode is ignored and the roles
staff and manager fall back to staff-QA mode while other roles fall back to
management mode. -/
theorem C8_mode_selection :
    (∀ role : String, select_use_staff_qa (some "staff_qa") role = true) ∧
    (∀ (mode : Option String) (role : String), mode ≠ some "staff_qa" →
      select_use_staff_qa mode role = (role == "staff" || role == "manager")) := by
  constructor
  · intro role; rfl
  · intro mode role h
    unfold select_use_staff_qa
    rw [if_neg h]
    cases hb : (role == "staff" || role == "manager") <;> simp [hb]

/-- Witness for C8: with no explicit mode, a non-staff role selects
management mode while the explicit `staff_qa` mode always wins. -/
theorem C8_mode_selection_witness :
    select_use_staff_qa (some "staff_qa") "ceo" = true ∧
    select_use_staff_qa none "ceo" = false := by
  refine ⟨C8_mode_selection.1 "ceo", ?_⟩
  rw [C8_mode_selection.2 none "ceo" (by decide)]
  decide

/-- The staff-path error translation never produces a success response. -/
lemma staff_error_result_ne_ok (m : String) (c : Nat) (r : String) (mi : Nat) :
    staff_error_result m ≠ .ok c r mi := by
  unfold staff_error_result
  by_cases hc : strContains m ":" = true <;> simp [hc]

/-- A successful dispatch pins down the response and the committed state:
the reply is the generated answer, the message id is the assistant row's,
and the state is the pending usage/message rows plus extraction rows. -/
lemma dispatch_ok_shape (s : Settings) (db1 : Db) (user : UserM)
    (req : ChatRequest) (tid : Nat) (bu_id : Option Nat)
    (bu : Option BusinessUnitM) (conv : ConversationM) (outcome : HttpOutcome)
    (jsonScan : String → ParseOutcome) (c : Nat) (r : String) (m : Nat)
    (hok : (dispatch_and_persist s db1 user req tid bu_id bu conv outcome
      jsonScan).1 = .ok c r m) :
    ∃ (svc : AiSvc) (answer : String) (ext : ExtractResult)
      (issues4 : List IssueM),
      c = conv.id ∧ r = answer ∧ m = db1.next_msg_id + 1 ∧
      dispatch_and_persist s db1 user req tid bu_id bu conv outcome jsonScan
        = (.ok conv.id answer (db1.next_msg_id + 1),
           { turn_pending_db db1 user req tid bu_id bu conv svc.purpose
               svc.effective_tier svc.model (tokens_of outcome).1
               (tokens_of outcome).2 none answer with
             issues := issues4,
             insights := db1.insights ++ insight_rows tid bu_id bu ext }) := by
  cases hsel : select_use_staff_qa req.mode user.role with
  | true =>
      cases hq : staff_qa_run s (tenant_ts db1 tid) outcome with
      | error e =>
          rcases e with msg | msg | msg | ⟨code, msg⟩
          · have hd : dispatch_and_persist s db1 user req tid bu_id bu conv
                outcome jsonScan = (staff_error_result msg, db1) := by
              unfold dispatch_and_persist
              rw [hsel, hq]
              rfl
            rw [hd] at hok
            exact absurd hok (staff_error_result_ne_ok _ _ _ _)
          · have hd : dispatch_and_persist s db1 user req tid bu_id bu conv
                outcome jsonScan = (.pyError (.typeError msg), db1) := by
              unfold dispatch_and_persist
              rw [hsel, hq]
              rfl
            rw [hd] at hok
            simp at hok
          · have hd : dispatch_and_persist s db1 user req tid bu_id bu conv
                outcome jsonScan = (.pyError (.attributeError msg), db1) := by
              unfold dispatch_and_persist
              rw [hsel, hq]
              rfl
            rw [hd] at hok
            simp at hok
          · have hd : dispatch_and_persist s db1 user req tid bu_id bu conv
                outcome jsonScan
                = (.pyError (.httpStatusError code msg), db1) := by
              unfold dispatch_and_persist
              rw [hsel, hq]
              rfl
            rw [hd] at hok
            simp at hok
      | ok pr =>
          obtain ⟨svc, answer⟩ := pr
          have hd : dispatch_and_persist s db1 user req tid bu_id bu conv
              outcome jsonScan = persist_turn db1 user req tid bu_id bu conv
                svc.purpose svc.effective_tier svc.model (tokens_of outcome).1
                (tokens_of outcome).2 none answer jsonScan := by
            unfold dispatch_and_persist
            rw [hsel, hq]
            rfl
          rw [hd] at hok
          rcases persist_turn_cases db1 user req tid bu_id bu conv svc.purpose
              svc.effective_tier svc.model (tokens_of outcome).1
              (tokens_of outcome).2 none answer jsonScan with
            ⟨e, hpe, _⟩ | ⟨ext, issues4, hE, hpt⟩
          · rw [hpe] at hok; simp at hok
          · rw [hpt] at hok
            simp only [HandlerResult.ok.injEq] at hok
            obtain ⟨h1, h2, h3⟩ := hok
            refine ⟨svc, answer, ext, issues4, h1.symm, h2.symm, h3.symm, ?_⟩
            rw [hd]
            exact hpt
  | false =>
      cases hmk : AIServiceV2.mk s (tenant_ts db1 tid) with
      | error e =>
          have hd : dispatch_and_persist s db1 user req tid bu_id bu conv
              outcome jsonScan = (.pyError e, db1) := by
            unfold dispatch_and_persist
            rw [hsel, hmk]
            rfl
          rw [hd] at hok
          simp at hok
      | ok svc =>
          have hd : dispatch_and_persist s db1 user req tid bu_id bu conv
              outcome jsonScan = persist_turn db1 user req tid bu_id bu conv
                svc.purpose svc.effective_tier svc.model (tokens_of outcome).1
                (tokens_of outcome).2 none (generate_answer s outcome)
                jsonScan := by
            unfold dispatch_and_persist
            rw [hsel, hmk]
            rfl
          rw [hd] at hok
          rcases persist_turn_cases db1 user req tid bu_id bu conv svc.purpose
              svc.effective_tier svc.model (tokens_of outcome).1
              (tokens_of outcome).2 none (generate_answer s outcome) jsonScan with
            ⟨e, hpe, _⟩ | ⟨ext, issues4, hE, hpt⟩
          · rw [hpe] at hok; simp at hok
          · rw [hpt] at hok
            simp only [HandlerResult.ok.injEq] at hok
            obtain ⟨h1, h2, h3⟩ := hok
            refine ⟨svc, generate_answer s outcome, ext, issues4, h1.symm,
              h2.symm, h3.symm, ?_⟩
            rw [hd]
            exact hpt

/-- A successful turn went through all three resolution stages and the
dispatch branch. -/
lemma handler_ok_shape (s : Settings) (db : Db) (user : UserM)
    (req : ChatRequest) (outcome : HttpOutcome)
    (jsonScan : String → ParseOutcome) (c : Nat) (r : String) (m : Nat)
    (hok : (create_ai_chat_v2 s db user req outcome jsonScan).1 = .ok c r m) :
    ∃ tid st conv db1,
      resolve_tenant db user = some tid ∧
      resolve_business_unit db user req = some st ∧
      load_or_create_conversation db tid user req st.1 st.2 = some (conv, db1) ∧
      create_ai_chat_v2 s db user req outcome jsonScan
        = dispatch_and_persist s db1 user req tid st.1 st.2 conv outcome
            jsonScan := by
  cases hrt : resolve_tenant db user with
  | none => simp [create_ai_chat_v2, hrt] at hok
  | some tid =>
      cases hbu : resolve_business_unit db user req with
      | none => simp [create_ai_chat_v2, hrt, hbu] at hok
      | some st =>
          obtain ⟨bu_id, bu⟩ := st
          cases hl : load_or_create_conversation db tid user req bu_id bu with
          | none => simp [create_ai_chat_v2, hrt, hbu, hl] at hok
          | some pr =>
              obtain ⟨conv, db1⟩ := pr
              exact ⟨tid, (bu_id, bu), conv, db1, rfl, rfl, hl,
                by simp [create_ai_chat_v2, hrt, hbu, hl]⟩

/-- C6: every successful chat turn submitted with no explicit conversation
id creates exactly one new conversation (owned by the requesting user,
titled with the message's first 50 characters) and persists exactly two
messages to it — a `user` message holding the request text and an
`assistant` message holding the reply. -/
theorem C6_new_conversation_roundtrip
    (s : Settings) (db : Db) (user : UserM) (req : ChatRequest)
    (outcome : HttpOutcome) (jsonScan : String → ParseOutcome)
    (cid : Nat) (reply : String) (mid : Nat)
    (hreq : req.conversation_id = none)
    (hfresh : ∀ mm ∈ db.messages, mm.conversation_id ≠ db.next_conv_id)
    (hok : (create_ai_chat_v2 s db user req outcome jsonScan).1
      = .ok cid reply mid) :
    cid = db.next_conv_id ∧ mid = db.next_msg_id + 1 ∧
    (∃ c : ConversationM,
      (create_ai_chat_v2 s db user req outcome jsonScan).2.conversations
        = db.conversations ++ [c] ∧ c.id = cid ∧ c.user_id = user.id ∧
      c.title = pyTake req.message 50) ∧
    ((create_ai_chat_v2 s db user req outcome jsonScan).2.messages.filter
        (fun mm => mm.conversation_id = cid))
      = [{ id := db.next_msg_id, conversation_id := cid, role := "user",
           content := req.message },
         { id := db.next_msg_id + 1, conversation_id := cid,
           role := "assistant", content := reply }] := by
  obtain ⟨tid, st, conv, db1, hrt, hbu, hl, heq⟩ :=
    handler_ok_shape s db user req outcome jsonScan cid reply mid hok
  have hl' : load_or_create_conversation db tid user req st.1 st.2
      = some ({ id := db.next_conv_id, tenant_id := tid, user_id := user.id,
                business_unit_id := if st.2.isSome then st.1 else none,
                title := pyTake req.message 50 },
              { db with
                  conversations := db.conversations ++
                    [{ id := db.next_conv_id, tenant_id := tid,
                       user_id := user.id,
                       business_unit_id := if st.2.isSome then st.1 else none,
                       title := pyTake req.message 50 }],
                  next_conv_id := db.next_conv_id + 1 }) := by
    unfold load_or_create_conversation
    rw [hreq]
    rfl
  have hpair := hl'.symm.trans hl
  simp only [Option.some.injEq, Prod.mk.injEq] at hpair
  obtain ⟨hconv, hdb1⟩ := hpair
  subst hconv
  subst hdb1
  rw [heq] at hok
  obtain ⟨svc, answer, ext, issues4, h1, h2, h3, hd⟩ :=
    dispatch_ok_shape s _ user req tid st.1 st.2 _ outcome jsonScan cid reply
      mid hok
  have hcid : cid = db.next_conv_id := h1
  have hmid : mid = db.next_msg_id + 1 := h3
  subst hcid
  have hconvs : (create_ai_chat_v2 s db user req outcome jsonScan).2.conversations
      = db.conversations ++
        [{ id := db.next_conv_id, tenant_id := tid, user_id := user.id,
           business_unit_id := if st.2.isSome then st.1 else none,
           title := pyTake req.message 50 }] := by
    rw [heq, hd]
    rfl
  have hmsgs : (create_ai_chat_v2 s db user req outcome jsonScan).2.messages
      = db.messages ++
        [{ id := db.next_msg_id, conversation_id := db.next_conv_id,
           role := "user", content := req.message },
         { id := db.next_msg_id + 1, conversation_id := db.next_conv_id,
           role := "assistant", content := answer }] := by
    rw [heq, hd]
    rfl
  have hnil : db.messages.filter
      (fun mm => decide (mm.conversation_id = db.next_conv_id)) = [] := by
    refine List.filter_eq_nil_iff.mpr ?_
    intro a ha
    simpa using hfresh a ha
  refine ⟨rfl, hmid, ⟨_, hconvs, rfl, rfl, rfl⟩, ?_⟩
  rw [hmsgs, List.filter_append, hnil, h2]
  simp

/-- Witness for C6: a concrete successful turn with no conversation id
creates conversation 1 and persists exactly the user/assistant pair. -/
theorem C6_new_conversation_roundtrip_witness :
    (1 : Nat) = db0.next_conv_id ∧ (2 : Nat) = db0.next_msg_id + 1 ∧
    (∃ c : ConversationM,
      (create_ai_chat_v2 s0 db0 user0
        { message := "テスト", conversation_id := none,
          business_unit_id := none, mode := none }
        (.ok "はい" (some 5) (some 7)) (fun _ => .noBlock)).2.conversations
        = db0.conversations ++ [c] ∧ c.id = 1 ∧ c.user_id = user0.id ∧
      c.title = pyTake "テスト" 50) ∧
    ((create_ai_chat_v2 s0 db0 user0
        { message := "テスト", conversation_id := none,
          business_unit_id := none, mode := none }
        (.ok "はい" (some 5) (some 7)) (fun _ => .noBlock)).2.messages.filter
          (fun mm => mm.conversation_id = 1))
      = [{ id := 1, conversation_id := 1, role := "user", content := "テスト" },
         { id := 2, conversation_id := 1, role := "assistant",
           content := "はい" }] :=
  C6_new_conversation_roundtrip s0 db0 user0
    { message := "テスト", conversation_id := none, business_unit_id := none,
      mode := none }
    (.ok "はい" (some 5) (some 7)) (fun _ => .noBlock) 1 "はい" 2 rfl
    (by decide) (by decide)

/-- A supplied conversation id that does not resolve to a conversation of
the requesting user makes the load stage fail. -/
lemma load_or_create_not_owned (db : Db) (tid : Nat) (user : UserM)
    (req : ChatRequest) (bu_id : Option Nat) (bu : Option BusinessUnitM)
    (cid : Nat) (hreq : req.conversation_id = some cid) (hcid : cid ≠ 0)
    (hown : ∀ c ∈ db.conversations, c.id = cid → c.user_id ≠ user.id) :
    load_or_create_conversation db tid user req bu_id bu = none := by
  have hfo : find_owned_conversation db user cid = none := by
    unfold find_owned_conversation
    cases hf : db.conversations.find? (fun c => c.id = cid) with
    | none => rfl
    | some conv =>
        have hid : conv.id = cid := by simpa using List.find?_some hf
        have hne := hown conv (List.mem_of_find?_eq_some hf) hid
        show (if conv.user_id = user.id then some conv else none) = none
        rw [if_neg hne]
  have hot : optTruthy (some cid) = some cid := by
    show (if cid = 0 then none else some cid) = some cid
    rw [if_neg hcid]
  unfold load_or_create_conversation
  rw [hreq, hot]
  show (match find_owned_conversation db user cid with
    | some conv => some (conv, db)
    | none => none) = none
  rw [hfo]

/-- C7 counterexample: a request supplying the nonexistent conversation
id 0 is not rejected — the truthiness check at ai_chat.py line 195 treats
the supplied id 0 as absent, so the chat turn succeeds and silently creates
a fresh conversation instead of returning the not-found error the claim
demands for every nonexistent supplied id. -/
theorem C7_counterexample :
    db0.conversations = [] ∧
    (create_ai_chat_v2 s0 db0 user0
      { message := "こんにちは", conversation_id := some 0,
        business_unit_id := none, mode := none }
      (.ok "はい" (some 1) (some 2)) (fun _ => .noBlock)).1
      = .ok 1 "はい" 2 ∧
    ((create_ai_chat_v2 s0 db0 user0
      { message := "こんにちは", conversation_id := some 0,
        business_unit_id := none, mode := none }
      (.ok "はい" (some 1) (some 2)) (fun _ => .noBlock)).2.conversations.map
        (fun c => c.id)) = [1] := by
  exact ⟨rfl, by decide, by decide⟩

/-- C7 (amended): for every request supplying a truthy (nonzero)
conversation id that is nonexistent or owned by a different user, the
chat-turn handler never succeeds and leaves the database untouched; once
the tenant and business-unit stages pass, the rejection is specifically the
404 conversation-not-found error; and the list-messages endpoint rejects
the same id with the same 404 and returns no message data.  (A supplied id
of 0 is treated as absent by the handler's truthiness check and starts a
new conversation instead.) -/
theorem C7_conversation_isolation
    (s : Settings) (db : Db) (user : UserM) (req : ChatRequest)
    (outcome : HttpOutcome) (jsonScan : String → ParseOutcome) (cid : Nat)
    (hreq : req.conversation_id = some cid) (hcid : cid ≠ 0)
    (hown : ∀ c ∈ db.conversations, c.id = cid → c.user_id ≠ user.id) :
    (∀ c r m, (create_ai_chat_v2 s db user req outcome jsonScan).1
      ≠ .ok c r m) ∧
    (create_ai_chat_v2 s db user req outcome jsonScan).2 = db ∧
    (∀ (tid : Nat) (st : Option Nat × Option BusinessUnitM),
      resolve_tenant db user = some tid →
      resolve_business_unit db user req = some st →
      (create_ai_chat_v2 s db user req outcome jsonScan).1
        = .httpError 404 "会話が見つかりません") ∧
    get_conversation_messages db user cid
      = .error (404, "会話が見つかりません") := by
  have hmsg : get_conversation_messages db user cid
      = .error (404, "会話が見つかりません") := by
    unfold get_conversation_messages
    cases hf : db.conversations.find? (fun c => c.id = cid) with
    | none => rfl
    | some conv =>
        have hid : conv.id = cid := by simpa using List.find?_some hf
        have hne := hown conv (List.mem_of_find?_eq_some hf) hid
        show (if conv.user_id = user.id then
            Except.ok (db.messages.filter (fun m => m.conversation_id = cid))
          else .error (404, "会話が見つかりません"))
          = .error (404, "会話が見つかりません")
        rw [if_neg hne]
  cases hrt : resolve_tenant db user with
  | none =>
      refine ⟨fun c r m => by simp [create_ai_chat_v2, hrt],
        by simp [create_ai_chat_v2, hrt], fun tid st h1 h2 => ?_, hmsg⟩
      exact Option.noConfusion h1
  | some tid =>
      cases hbu : resolve_business_unit db user req with
      | none =>
          refine ⟨fun c r m => by simp [create_ai_chat_v2, hrt, hbu],
            by simp [create_ai_chat_v2, hrt, hbu], fun tid' st h1 h2 => ?_,
            hmsg⟩
          exact Option.noConfusion h2
      | some st =>
          obtain ⟨bu_id, bu⟩ := st
          have hc := load_or_create_not_owned db tid user req bu_id bu cid
            hreq hcid hown
          exact ⟨fun c r m => by simp [create_ai_chat_v2, hrt, hbu, hc],
            by simp [create_ai_chat_v2, hrt, hbu, hc],
            fun tid' st' h1 h2 => by simp [create_ai_chat_v2, hrt, hbu, hc],
            hmsg⟩

/-- Witness for C7: user 10 requesting user 99's conversation 5 gets 404
from both endpoints. -/
theorem C7_conversation_isolation_witness :
    (create_ai_chat_v2 s0 db_other user0
      { message := "こんにちは", conversation_id := some 5,
        business_unit_id := none, mode := none }
      (.ok "は" none none) (fun _ => .noBlock)).1
      = .httpError 404 "会話が見つかりません" ∧
    get_conversation_messages db_other user0 5
      = .error (404, "会話が見つかりません") := by
  have h := C7_conversation_isolation s0 db_other user0
    { message := "こんにちは", conversation_id := some 5,
      business_unit_id := none, mode := none }
    (.ok "は" none none) (fun _ => .noBlock) 5 rfl (by decide) (by decide)
  exact ⟨h.2.2.1 1 (some 2, some { id := 2, code := "cafe", name := "カフェ" })
    (by decide) (by decide), h.2.2.2⟩

/-- C10: in management (non-staff-QA) mode, every backend exception —
configuration, authentication, timeout, anything `generate_reply` raises —
is swallowed inside `generate_answer`: the fixed fallback apology is
returned, the turn completes successfully, and the fallback is persisted as
the assistant message; no error crosses to the caller. -/
theorem C10_management_fallback
    (s : Settings) (db : Db) (user : UserM) (req : ChatRequest)
    (outcome : HttpOutcome) (jsonScan : String → ParseOutcome)
    (tid : Nat) (st : Option Nat × Option BusinessUnitM)
    (conv : ConversationM) (db1 : Db) (svc : AiSvc) (e : PyErr)
    (hrt : resolve_tenant db user = some tid)
    (hbu : resolve_business_unit db user req = some st)
    (hconv : load_or_create_conversation db tid user req st.1 st.2
      = some (conv, db1))
    (hmode : select_use_staff_qa req.mode user.role = false)
    (hmk : AIServiceV2.mk s (tenant_ts db1 tid) = .ok svc)
    (herr : anthropic_generate_reply (s.anthropic_api_key ≠ "") outcome
      = .error e)
    (hscan : jsonScan fallback_response = .noBlock) :
    generate_answer s outcome = fallback_response ∧
    (create_ai_chat_v2 s db user req outcome jsonScan).1
      = .ok conv.id fallback_response (db1.next_msg_id + 1) ∧
    (create_ai_chat_v2 s db user req outcome jsonScan).2.messages
      = db1.messages ++
        [{ id := db1.next_msg_id, conversation_id := conv.id, role := "user",
           content := req.message },
         { id := db1.next_msg_id + 1, conversation_id := conv.id,
           role := "assistant", content := fallback_response }] := by
  have hga : generate_answer s outcome = fallback_response := by
    unfold generate_answer
    rw [herr]
  have heq : create_ai_chat_v2 s db user req outcome jsonScan
      = dispatch_and_persist s db1 user req tid st.1 st.2 conv outcome
          jsonScan := by
    simp [create_ai_chat_v2, hrt, hbu, hconv]
  have hd : dispatch_and_persist s db1 user req tid st.1 st.2 conv outcome
      jsonScan = persist_turn db1 user req tid st.1 st.2 conv svc.purpose
        svc.effective_tier svc.model (tokens_of outcome).1
        (tokens_of outcome).2 none (generate_answer s outcome) jsonScan := by
    unfold dispatch_and_persist
    rw [hmode, hmk]
    rfl
  rw [hga] at hd
  have hinsight : _extract_insight_from_text fallback_response = none := by
    decide
  have hext : extract_issue_insight_from_ai_response
      (jsonScan fallback_response) fallback_response req.message
      = .ok { issue :=
                if _is_issue_like req.message then
                  some { title := JVal.jstr (pyTake req.message 100),
                         description := JVal.jstr req.message,
                         topic := inferTopicKeywords req.message }
                else none,
              insight := none } := by
    rw [hscan, extract_heuristic_eq _ _ _ (Or.inl rfl), hinsight]
  rcases persist_turn_cases db1 user req tid st.1 st.2 conv svc.purpose
      svc.effective_tier svc.model (tokens_of outcome).1 (tokens_of outcome).2
      none fallback_response jsonScan with
    ⟨e2, hpe, herr2 | ⟨ext2, hok2, hip2⟩⟩ | ⟨ext, issues4, hE, hpt⟩
  · rw [hext] at herr2
    exact absurd herr2 (by simp)
  · rw [hext] at hok2
    injection hok2 with hok2'
    subst hok2'
    revert hip2
    cases hil : _is_issue_like req.message with
    | false => intro hip2; rw [if_neg (by simp [hil])] at hip2; cases hip2
    | true =>
        intro hip2
        rw [if_pos (by simp [hil])] at hip2
        obtain ⟨l, hl2⟩ := issue_persist_jstr_ok
          (turn_pending_db db1 user req tid st.1 st.2 conv svc.purpose
            svc.effective_tier svc.model (tokens_of outcome).1
            (tokens_of outcome).2 none fallback_response)
          tid st.1 st.2 user conv (pyTake req.message 100) req.message
          (inferTopicKeywords req.message)
        rw [hl2] at hip2
        cases hip2
  · rw [hext] at hE
    injection hE with hE'
    refine ⟨hga, ?_, ?_⟩
    · rw [heq, hd, hpt]
    · rw [heq, hd, hpt]
      rfl

/-- Witness for C10: a management turn whose backend call times out still
completes, returning and persisting the fixed fallback apology. -/
theorem C10_management_fallback_witness :
    generate_answer s0 .timeout = fallback_response ∧
    (create_ai_chat_v2 s0 db0 user_mgr
      { message := "売上を見せて", conversation_id := none,
        business_unit_id := none, mode := none }
      .timeout (fun _ => .noBlock)).1 = .ok 1 fallback_response 2 ∧
    (create_ai_chat_v2 s0 db0 user_mgr
      { message := "売上を見せて", conversation_id := none,
        business_unit_id := none, mode := none }
      .timeout (fun _ => .noBlock)).2.messages
      = [{ id := 1, conversation_id := 1, role := "user",
           content := "売上を見せて" },
         { id := 2, conversation_id := 1, role := "assistant",
           content := fallback_response }] :=
  C10_management_fallback s0 db0 user_mgr
    { message := "売上を見せて", conversation_id := none,
      business_unit_id := none, mode := none }
    .timeout (fun _ => .noBlock) 1
    (some 2, some { id := 2, code := "cafe", name := "カフェ" })
    { id := 1, tenant_id := 1, user_id := 11, business_unit_id := some 2,
      title := "売上を見せて" }
    { db0 with conversations := [{ id := 1, tenant_id := 1, user_id := 11,
                                   business_unit_id := some 2,
                                   title := "売上を見せて" }],
               next_conv_id := 2 }
    { purpose := "management_decision", effective_tier := "premium",
      model := "claude-s" }
    (.valueError ("Anthropic API request timed out. " ++
      "The AI service may be experiencing high load."))
    (by decide) (by decide) (by decide) (by decide) (by decide) (by decide)
    rfl

end Mikamo
